import Mathlib

/-!
Verification of the TM20 terminal hub against its specification.

This file gives a shallow embedding, in Lean 4, of the parts of the
`devices` Django application that the verified properties talk about:

* the data model (`Terminal`, `BiometricUser`, `AttendanceLog` rows),
* the TM20 protocol response builders and the message validator,
* the registration service and handler,
* the attendance ingest service (batch `sendlog` processing),
* the user sync service (third-party upsert) and the `setusername`
  response correlation,
* the attendance sync engine (pending/retry selection, failure marking).

Conventions of the embedding:

* Database tables are Lean lists of rows, in insertion order; Django
  `update` calls become `List.map`, `filter` calls become `List.filter`.
* Timestamps are natural numbers counted in minutes (the only arithmetic
  the code performs on them is comparison and adding minute deltas).
* JSON documents are values of the inductive type `JVal`; a JSON object
  is an association list `List (String × JVal)`.
* Functions keep the names of the Python functions they embed.

Two functions that the sources call are not defined anywhere under the
application sources (`AttendanceLog.determine_inout_status` and
`BiometricUser.get_next_enrollid` are invoked but never declared); those
two are modelled from the specification, and are marked as such in their
doc comments.
-/

namespace TM20

/-- A JSON value, as produced by `orjson.loads` on a TM20 frame. -/
inductive JVal where
  | jnull
  | jbool (b : Bool)
  | jint (n : Int)
  | jstr (s : String)
  | jlist (xs : List JVal)
  | jobj (fields : List (String × JVal))

/-- A JSON object: the top-level shape of every TM20 message. -/
abbrev JObj := List (String × JVal)

/-- `message.get(key)`: first binding of `key`, if any. -/
def getF (m : JObj) (k : String) : Option JVal :=
  (m.find? (fun p => p.1 = k)).map (fun p => p.2)

/-- `message.get(key, default)` followed by use as a string.  When the
field is present but not a string the Python code would raise (e.g. on
`.lower()`), an error the websocket consumer catches and drops; we fold
that case into the default. -/
def getStrD (m : JObj) (k : String) (d : String) : String :=
  match getF m k with
  | some (JVal.jstr s) => s
  | _ => d

/-- `message.get(key, default)` used as an integer. -/
def getIntD (m : JObj) (k : String) (d : Int) : Int :=
  match getF m k with
  | some (JVal.jint n) => n
  | _ => d

/-- ASCII lower-casing of one character (TM20 verbs are ASCII, so this
matches Python `str.lower()` on every value the protocol carries). -/
def lowerChar (c : Char) : Char :=
  if c.isUpper then Char.ofNat (c.toNat + 32) else c

/-- ASCII `str.lower()`. -/
def lowerStr (s : String) : String :=
  String.mk (s.data.map lowerChar)

/-- Python truthiness of a JSON value (`if record:` style tests). -/
def jTruthy : JVal → Bool
  | JVal.jnull => false
  | JVal.jbool b => b
  | JVal.jint n => n ≠ 0
  | JVal.jstr s => ¬ s.isEmpty
  | JVal.jlist xs => ¬ xs.isEmpty
  | JVal.jobj fs => ¬ fs.isEmpty

/-- `sync_status` values of `AttendanceLog` (`SYNC_STATUS_CHOICES`). -/
inductive LogSyncStatus where
  | pending
  | sent
  | failed
deriving DecidableEq, Repr

/-- `sync_status` values of `BiometricUser` (glossary of the spec and
`get_sync_status` in the user sync manager). -/
inductive UserSyncStatus where
  | localOnly
  | pendingSync
  | syncedToTerminal
  | errorStatus
  | synced
deriving DecidableEq, Repr

/-- One row of `tm20_terminals` (`Terminal` model). -/
structure TerminalRow where
  id : Nat
  sn : String
  cpusn : String
  model : String
  firmware : String
  macAddress : String
  userCapacity : Int
  fpCapacity : Int
  cardCapacity : Int
  logCapacity : Int
  usedUsers : Int
  usedFp : Int
  usedCards : Int
  usedLogs : Int
  fpAlgo : String
  lastSeen : Option Nat
  isActive : Bool
  isWhitelisted : Bool
deriving DecidableEq, Repr

/-- `devinfo` block of a `reg` message as produced by
`TM20Parser.parse_register` (defaults already applied). -/
structure DeviceInfo where
  modelname : String
  usersize : Int
  fpsize : Int
  cardsize : Int
  pwdsize : Int
  logsize : Int
  useduser : Int
  usedfp : Int
  usedcard : Int
  usedpwd : Int
  usedlog : Int
  usednewlog : Int
  fpalgo : String
  firmware : String
  time : String
  mac : String
deriving DecidableEq, Repr

/-- Typed `reg` message (`RegisterMessage` in protocol/types.py). -/
structure RegisterMessage where
  sn : String
  cpusn : String
  devinfo : Option DeviceInfo
deriving DecidableEq, Repr

/-- Stand-in for `strftime("%Y-%m-%d %H:%M:%S")` on the abstract clock:
an injective rendering of the server time. -/
def cloudtimeOf (now : Nat) : String :=
  toString now

namespace ResponseBuilder

/-- `ResponseBuilder.reg` (protocol/builders.py). -/
def reg (success : Bool) (cloudtime : String) (nosenduser : Bool)
    (reason : String) : JObj :=
  if success then
    [("ret", JVal.jstr "reg"), ("result", JVal.jbool true),
     ("cloudtime", JVal.jstr cloudtime), ("nosenduser", JVal.jbool nosenduser)]
  else
    [("ret", JVal.jstr "reg"), ("result", JVal.jbool false),
     ("reason", JVal.jstr reason)]

/-- `ResponseBuilder.sendlog` (message-free success shape). -/
def sendlog (success : Bool) (count : Int) (logindex : Int)
    (cloudtime : String) (access : Int) : JObj :=
  if success then
    [("ret", JVal.jstr "sendlog"), ("result", JVal.jbool true),
     ("count", JVal.jint count), ("logindex", JVal.jint logindex),
     ("cloudtime", JVal.jstr cloudtime), ("access", JVal.jint access)]
  else
    [("ret", JVal.jstr "sendlog"), ("result", JVal.jbool false),
     ("reason", JVal.jint 1)]

/-- `ResponseBuilder.senduser`. -/
def senduser (success : Bool) (cloudtime : String) (reason : Int) : JObj :=
  if success then
    [("ret", JVal.jstr "senduser"), ("result", JVal.jbool true),
     ("cloudtime", JVal.jstr cloudtime)]
  else
    [("ret", JVal.jstr "senduser"), ("result", JVal.jbool false),
     ("reason", JVal.jint reason)]

/-- `ResponseBuilder.sendqrcode`. -/
def sendqrcode (success : Bool) (access : Int) (enrollid : Int)
    (username : String) (message : String) : JObj :=
  if success then
    [("ret", JVal.jstr "sendqrcode"), ("result", JVal.jbool true),
     ("access", JVal.jint access), ("enrollid", JVal.jint enrollid),
     ("username", JVal.jstr username), ("message", JVal.jstr message)]
  else
    [("ret", JVal.jstr "sendqrcode"), ("result", JVal.jbool false),
     ("reason", JVal.jint 1)]

end ResponseBuilder

namespace RegistrationService

/-- Field overwrite performed by `RegistrationService.register` through
`update_or_create`: the `defaults` dict applied to an existing row. -/
def applyRegDefaults (t : TerminalRow) (m : RegisterMessage) (now : Nat) :
    TerminalRow :=
  let base := { t with cpusn := m.cpusn, lastSeen := some now, isActive := true }
  match m.devinfo with
  | none => base
  | some d =>
      { base with
        model := d.modelname, firmware := d.firmware, macAddress := d.mac,
        userCapacity := d.usersize, fpCapacity := d.fpsize,
        cardCapacity := d.cardsize, logCapacity := d.logsize,
        usedUsers := d.useduser, usedFp := d.usedfp,
        usedCards := d.usedcard, usedLogs := d.usedlog,
        fpAlgo := d.fpalgo }

/-- Row created by `update_or_create` when no terminal with that `sn`
exists: Django model defaults with the `defaults` dict applied. -/
def newTerminalRow (m : RegisterMessage) (now : Nat) (freshId : Nat) :
    TerminalRow :=
  applyRegDefaults
    { id := freshId, sn := m.sn, cpusn := "", model := "", firmware := "",
      macAddress := "", userCapacity := 3000, fpCapacity := 3000,
      cardCapacity := 3000, logCapacity := 100000, usedUsers := 0,
      usedFp := 0, usedCards := 0, usedLogs := 0, fpAlgo := "",
      lastSeen := none, isActive := true, isWhitelisted := true }
    m now

/-- `RegistrationService.register`: upsert of the `Terminal` row keyed by
`sn` (`Terminal.objects.update_or_create(sn=..., defaults=...)`).
Returns the new table and the `created` flag. -/
def register (db : List TerminalRow) (m : RegisterMessage) (now : Nat)
    (freshId : Nat) : List TerminalRow × Bool :=
  match db.find? (fun t => t.sn = m.sn) with
  | some _ =>
      (db.map (fun t => if t.sn = m.sn then applyRegDefaults t m now else t),
       false)
  | none => (db ++ [newTerminalRow m now freshId], true)

/-- `RegistrationService.is_whitelisted`: with whitelist mode off always
true; otherwise the `sn` must resolve to a row with both
`is_whitelisted` and `is_active`, a missing row failing. -/
def is_whitelisted (requireWhitelist : Bool) (db : List TerminalRow)
    (sn : String) : Bool :=
  if ¬ requireWhitelist then true
  else
    match db.find? (fun t => t.sn = sn) with
    | some t => t.isWhitelisted && t.isActive
    | none => false

end RegistrationService

/-- Observable effect of the consumer processing one `reg` command:
the wire response, the terminal table afterwards, and whether the server
closed the websocket as part of handling the message. -/
structure RegOutcome where
  response : JObj
  db : List TerminalRow
  socketClosed : Bool

/-- `RegistrationHandler.handle` combined with
`TM20ConsumerV2._handle_command`: missing `sn` and whitelist failure
answer `result:false` and leave the table untouched; a passing message
is upserted and answered `result:true`.  Neither the handler nor
`_handle_command` ever invokes `close()` on the socket, so
`socketClosed` is `false` on every path (the only close in the consumer
is the inactivity heartbeat). -/
def handleReg (requireWhitelist : Bool) (db : List TerminalRow)
    (m : RegisterMessage) (now : Nat) (freshId : Nat) : RegOutcome :=
  if m.sn = "" then
    { response := ResponseBuilder.reg false "" true "Missing SN",
      db := db, socketClosed := false }
  else if ¬ RegistrationService.is_whitelisted requireWhitelist db m.sn then
    { response := ResponseBuilder.reg false "" true "Terminal not authorized",
      db := db, socketClosed := false }
  else
    let r := RegistrationService.register db m now freshId
    { response := ResponseBuilder.reg true (cloudtimeOf now) true "",
      db := r.1, socketClosed := false }

/-- Concrete device info used by witnesses (scenario 1 of the spec). -/
def devInfoW : DeviceInfo :=
  { modelname := "TM20", usersize := 3000, fpsize := 3000, cardsize := 3000,
    pwdsize := 3000, logsize := 100000, useduser := 0, usedfp := 0,
    usedcard := 0, usedpwd := 0, usedlog := 0, usednewlog := 0,
    fpalgo := "", firmware := "v2.4", time := "", mac := "AA:BB:CC:DD:EE:FF" }

/-- Concrete `reg` message used by witnesses. -/
def regMsgW : RegisterMessage :=
  { sn := "TM20-001", cpusn := "C1", devinfo := some devInfoW }

/-- A `ValidationError` raised by `MessageValidator` (protocol/validators.py). -/
structure VErr where
  message : String
  fieldName : Option String
  code : String
deriving DecidableEq, Repr

namespace MessageValidator

def VALID_ADMIN_LEVELS : List Int := [0, 1, 2]

def VALID_BACKUP_NUMS : List Int :=
  ((List.range 12).map Int.ofNat)
    ++ ((List.range 8).map (fun n => Int.ofNat (20 + n)))
    ++ ((List.range 8).map (fun n => Int.ofNat (30 + n)))
    ++ [50]

def VALID_MODES : List Int := [0, 1, 2, 3, 8, 13]

def VALID_INOUT : List Int := [0, 1]

/-- `field in message` membership test. -/
def hasField (m : JObj) (k : String) : Bool :=
  (getF m k).isSome

/-- `REQUIRED_FIELDS` lookup of `_validate_command`. -/
def requiredFieldsFor (cmd : String) : List String :=
  if cmd = "reg" then ["sn"]
  else if cmd = "sendlog" then ["sn", "count", "record"]
  else if cmd = "senduser" then ["enrollid", "backupnum"]
  else if cmd = "sendqrcode" then ["sn", "record"]
  else []

/-- Required-field loop of `_validate_command`. -/
def checkRequired (m : JObj) : List String → Except VErr Bool
  | [] => Except.ok true
  | f :: rest =>
      if ¬ hasField m f then
        Except.error ⟨"Missing required field: " ++ f, some f, "MISSING_FIELD"⟩
      else checkRequired m rest

/-- Capacity check of `_validate_devinfo`: the value must be a
non-negative integer (a Python `bool` also passes `isinstance(_, int)`
and is non-negative). -/
def capOk : JVal → Bool
  | JVal.jint n => decide (0 ≤ n)
  | JVal.jbool _ => true
  | _ => false

/-- Loop of `_validate_devinfo` over the four capacity fields. -/
def checkCaps (fs : JObj) : List String → Except VErr Bool
  | [] => Except.ok true
  | f :: rest =>
      match getF fs f with
      | none => checkCaps fs rest
      | some v =>
          if capOk v then checkCaps fs rest
          else Except.error ⟨f ++ " must be a positive integer",
            some ("devinfo." ++ f), "INVALID_CAPACITY"⟩

/-- `MessageValidator._validate_devinfo`. -/
def validate_devinfo (fs : JObj) : Except VErr Bool :=
  checkCaps fs ["usersize", "fpsize", "cardsize", "logsize"]

/-- `MessageValidator._validate_reg`.  A truthy `devinfo` that is not an
object would make the Python iteration raise a `TypeError`; the
consumer's blanket `except` also drops such a frame, modelled here as a
`TYPE_ERROR` validation failure. -/
def validate_reg (m : JObj) : Except VErr Bool :=
  let sn := getStrD m "sn" ""
  if sn = "" then Except.error ⟨"SN cannot be empty", some "sn", "EMPTY_SN"⟩
  else if sn.length < 5 ∨ 50 < sn.length then
    Except.error ⟨"SN length must be between 5 and 50 characters",
      some "sn", "INVALID_SN_LENGTH"⟩
  else
    match getF m "devinfo" with
    | some (JVal.jobj fs) =>
        if fs.isEmpty then Except.ok true else validate_devinfo fs
    | some v =>
        if jTruthy v then Except.error ⟨"TypeError", none, "TYPE_ERROR"⟩
        else Except.ok true
    | none => Except.ok true

/-- `MessageValidator._validate_log_record`: `mode` and `inout` outside
their enums only log warnings, so only the two field-presence checks can
fail.  A non-object record raises a `TypeError` in Python, modelled as a
`TYPE_ERROR` failure (equally dropped by the consumer). -/
def validate_log_record (rec : JVal) (i : Nat) : Except VErr Bool :=
  match rec with
  | JVal.jobj fs =>
      if ¬ hasField fs "enrollid" then
        Except.error ⟨"Log record " ++ toString i ++ " missing enrollid",
          some "enrollid", "MISSING_ENROLLID"⟩
      else if ¬ hasField fs "time" then
        Except.error ⟨"Log record " ++ toString i ++ " missing time",
          some "time", "MISSING_TIME"⟩
      else Except.ok true
  | _ => Except.error ⟨"TypeError", none, "TYPE_ERROR"⟩

/-- Record loop of `_validate_sendlog`. -/
def checkRecords : List JVal → Nat → Except VErr Bool
  | [], _ => Except.ok true
  | r :: rest, i =>
      match validate_log_record r i with
      | Except.error e => Except.error e
      | Except.ok _ => checkRecords rest (i + 1)

/-- `MessageValidator._validate_sendlog`: a `count` mismatching
`len(record)` only logs a warning and is not fatal. -/
def validate_sendlog (m : JObj) : Except VErr Bool :=
  match getF m "record" with
  | some (JVal.jlist xs) => checkRecords xs 0
  | some _ =>
      Except.error ⟨"record must be a list", some "record",
        "INVALID_RECORD_TYPE"⟩
  | none => checkRecords [] 0

/-- `MessageValidator._validate_senduser`. -/
def validate_senduser (m : JObj) : Except VErr Bool :=
  let enrollid := getIntD m "enrollid" 0
  if enrollid < 0 then
    Except.error ⟨"enrollid must be positive", some "enrollid",
      "INVALID_ENROLLID"⟩
  else
    let backupnum := getIntD m "backupnum" 0
    if ¬ VALID_BACKUP_NUMS.contains backupnum then
      Except.error ⟨"Invalid backupnum: " ++ toString backupnum,
        some "backupnum", "INVALID_BACKUPNUM"⟩
    else
      let admin := getIntD m "admin" 0
      if ¬ VALID_ADMIN_LEVELS.contains admin then
        Except.error ⟨"Invalid admin level: " ++ toString admin,
          some "admin", "INVALID_ADMIN"⟩
      else Except.ok true

/-- `MessageValidator._validate_sendqrcode`. -/
def validate_sendqrcode (m : JObj) : Except VErr Bool :=
  let record := (getF m "record").getD (JVal.jstr "")
  if ¬ jTruthy record then
    Except.error ⟨"QR code record cannot be empty", some "record",
      "EMPTY_QRCODE"⟩
  else Except.ok true

/-- `MessageValidator._validate_command`. -/
def validate_command (cmd : String) (m : JObj) : Except VErr Bool :=
  match checkRequired m (requiredFieldsFor cmd) with
  | Except.error e => Except.error e
  | Except.ok _ =>
      if cmd = "reg" then validate_reg m
      else if cmd = "sendlog" then validate_sendlog m
      else if cmd = "senduser" then validate_senduser m
      else if cmd = "sendqrcode" then validate_sendqrcode m
      else Except.ok true

/-- `MessageValidator._validate_response`. -/
def validate_response (m : JObj) : Except VErr Bool :=
  if ¬ hasField m "result" then
    Except.error ⟨"Response must have result field", some "result",
      "MISSING_RESULT"⟩
  else Except.ok true

/-- `MessageValidator.validate` (the top-level entry run by the consumer
before dispatch). -/
def validate (m : JObj) : Except VErr Bool :=
  let cmd := lowerStr (getStrD m "cmd" "")
  let ret := lowerStr (getStrD m "ret" "")
  if cmd = "" ∧ ret = "" then
    Except.error ⟨"Message must have cmd or ret field", none,
      "MISSING_COMMAND"⟩
  else if cmd ≠ "" then validate_command cmd m
  else validate_response m

end MessageValidator

/-- An inbound websocket frame as seen by `TM20ConsumerV2.receive`:
either `TM20Parser.parse_json` fails (malformed JSON raises, caught by
the blanket `except`), or it yields a JSON object. -/
inductive Frame where
  | parseFailure
  | parsed (m : JObj)

/-- What `receive` does with a frame. -/
inductive ReceiveAction where
  | dispatched (m : JObj)
  | droppedInvalid (e : VErr)
  | droppedException

/-- Control flow of `TM20ConsumerV2.receive`: a parse failure is caught
by the blanket `except` and logged; a validation failure is logged at
warning and the method returns; only a valid message reaches
`_dispatch`. -/
def receiveAction : Frame → ReceiveAction
  | Frame.parseFailure => ReceiveAction.droppedException
  | Frame.parsed m =>
      match MessageValidator.validate m with
      | Except.error e => ReceiveAction.droppedInvalid e
      | Except.ok _ => ReceiveAction.dispatched m

/-- Whether `receive` closes the websocket while handling the frame:
it never does — no path of `receive` (including both drop paths)
invokes `close()`; the only close in the consumer is the inactivity
heartbeat, which is driven by elapsed time, not by frame content. -/
def receiveCloses : Frame → Bool := fun _ => false

/-- Concrete invalid frame for the C9 witness: `senduser` with
`backupnum = 99`, outside the closed credential-slot set. -/
def invalidMsgW : JObj :=
  [("cmd", JVal.jstr "senduser"), ("enrollid", JVal.jint 1),
   ("backupnum", JVal.jint 99)]

/-- One row of `tm20_biometric_users` (`BiometricUser` model, together
with the sync columns the services read and write on it). -/
structure BUser where
  id : Nat
  terminalId : Nat
  enrollid : Nat
  externalId : String
  name : String
  admin : Nat
  isEnabled : Bool
  weekzone : Nat
  group : Nat
  starttime : Option Nat
  endtime : Option Nat
  syncStatus : UserSyncStatus
  lastSyncedAt : Option Nat
  metadata : List (String × String)
  sourceConfig : Option Nat
deriving DecidableEq, Repr

/-- One row of `tm20_attendance_logs` (`AttendanceLog` model).
`updatedAt` is the row-level modification stamp the sync engine's
backoff reads (`log.updated_at`). -/
structure AttendanceLogRow where
  id : Nat
  terminalId : Nat
  userId : Option Nat
  enrollid : Int
  time : Nat
  mode : Int
  inout : Int
  event : Int
  verifymode : Option Int
  image : String
  accessGranted : Bool
  syncStatus : LogSyncStatus
  syncAttempts : Nat
  syncedAt : Option Nat
  syncError : String
  updatedAt : Nat
deriving DecidableEq, Repr

/-- One record of a `sendlog` batch, as produced by
`TM20Parser.parse_sendlog`.  `timeParsed` is the result of
`TM20Parser.parse_datetime` on the record's time string (`none` for a
malformed or empty time, which falls back to the server clock). -/
structure LogRecord where
  enrollid : Int
  timeParsed : Option Nat
  mode : Int
  inout : Int
  event : Int
  verifymode : Option Int
  image : String
deriving DecidableEq, Repr

namespace AttendanceLog

/-- Modelled from the spec: `AttendanceLog.determine_inout_status` is
invoked by `AttendanceService._prepare_log` but is defined nowhere under
the sources.  Spec §4.2.2: given the enrollid's most recent prior log
stored for the same terminal, a previous `inout` of 0 (entry) makes the
current 1 (exit), otherwise 0; with no prior log the default is 0.  It
is a classmethod receiving only `(enrollid, terminal, current_time)`,
so it can consult only rows already stored in the database. -/
def determine_inout_status (db : List AttendanceLogRow) (enrollid : Int)
    (terminalId : Nat) : Int :=
  match (db.filter
      (fun r => r.terminalId = terminalId ∧ r.enrollid = enrollid)).getLast? with
  | none => 0
  | some prev => if prev.inout = 0 then 1 else 0

end AttendanceLog

namespace AttendanceService

/-- `AttendanceService._check_access`: unknown users are allowed; a
resolved user must be enabled and inside its validity window. -/
def check_access (users : List BUser) (terminalId : Nat) (enrollid : Int)
    (now : Nat) : Bool :=
  match users.find?
      (fun u => u.terminalId = terminalId ∧ (u.enrollid : Int) = enrollid) with
  | none => true
  | some u =>
      if ¬ u.isEnabled then false
      else if (match u.starttime with
        | some st => decide (now < st)
        | none => false) then false
      else if (match u.endtime with
        | some et => decide (et < now)
        | none => false) then false
      else true

/-- `AttendanceService._prepare_log`: build one `AttendanceLog` row
without inserting it.  The user link and the server-determined `inout`
are computed only for `enrollid > 0`; `db` is the table the lookups run
against (the state before the batch insert). -/
def prepare_log (users : List BUser) (db : List AttendanceLogRow)
    (terminalId : Nat) (r : LogRecord) (now : Nat) (freshId : Nat) :
    AttendanceLogRow :=
  let log_time := r.timeParsed.getD now
  let user :=
    if 0 < r.enrollid then
      (users.find?
        (fun u => u.terminalId = terminalId ∧ (u.enrollid : Int) = r.enrollid)).map
        (fun u => u.id)
    else none
  let inout_status :=
    if 0 < r.enrollid then
      AttendanceLog.determine_inout_status db r.enrollid terminalId
    else r.inout
  { id := freshId, terminalId := terminalId, userId := user,
    enrollid := r.enrollid, time := log_time, mode := r.mode,
    inout := inout_status, event := r.event, verifymode := r.verifymode,
    image := r.image, accessGranted := true,
    syncStatus := LogSyncStatus.pending, syncAttempts := 0, syncedAt := none,
    syncError := "", updatedAt := now }

/-- The `logs_to_create` loop of `_process_logs_sync`: every record is
prepared against the same pre-batch table `db` (the rows are only
bulk-inserted after the loop), with ids assigned in order. -/
def prepareBatch (users : List BUser) (db : List AttendanceLogRow)
    (terminalId : Nat) (now : Nat) :
    List LogRecord → Nat → List AttendanceLogRow
  | [], _ => []
  | r :: rest, fid =>
      prepare_log users db terminalId r now fid
        :: prepareBatch users db terminalId now rest (fid + 1)

/-- `AttendanceService._process_logs_sync`: prepare every record of the
batch against the pre-batch table, compute the access decision (the
last record with `enrollid > 0` wins), then bulk-insert all prepared
rows in one transaction.  Returns the table afterwards, the processed
count, and the access flag. -/
def process_logs_sync (users : List BUser) (db : List AttendanceLogRow)
    (terminalId : Nat) (records : List LogRecord) (now : Nat)
    (nextId : Nat) : List AttendanceLogRow × Nat × Bool :=
  let logs_to_create := prepareBatch users db terminalId now records nextId
  let access_granted := records.foldl
    (fun acc r =>
      if 0 < r.enrollid then check_access users terminalId r.enrollid now
      else acc) true
  (db ++ logs_to_create, logs_to_create.length, access_granted)

/-- Several `sendlog` batches processed in arrival order for one
terminal, each batch one `_process_logs_sync` call. -/
def processBatches (users : List BUser) (terminalId : Nat) (now : Nat) :
    List (List LogRecord) → List AttendanceLogRow → Nat →
    List AttendanceLogRow
  | [], db, _ => db
  | b :: rest, db, nid =>
      processBatches users terminalId now rest
        (process_logs_sync users db terminalId b now nid).1 (nid + b.length)

end AttendanceService

/-- The stored inout values for one enrollid on one terminal, in storage
order. -/
def inoutSeq (db : List AttendanceLogRow) (enrollid : Int)
    (terminalId : Nat) : List Int :=
  (db.filter (fun r => r.terminalId = terminalId ∧ r.enrollid = enrollid)).map
    (fun r => r.inout)

/-- The alternating sequence 0,1,0,1,… of length `k`. -/
def altSeq (k : Nat) : List Int :=
  (List.range k).map (fun i => ((i % 2 : Nat) : Int))

/-- The flip rule applied to a stored inout sequence: 0 after no
history, 1 after a 0, 0 after anything else. -/
def flipNext (s : List Int) : Int :=
  match s.getLast? with
  | none => 0
  | some p => if p = 0 then 1 else 0

/-- Morning punch of enrollid 7 (scenario 2 of the spec). -/
def punchA : LogRecord :=
  { enrollid := 7, timeParsed := some 480, mode := 0, inout := 0,
    event := 0, verifymode := none, image := "" }

/-- Noon punch of enrollid 7 (scenario 2 of the spec). -/
def punchB : LogRecord :=
  { enrollid := 7, timeParsed := some 720, mode := 0, inout := 0,
    event := 0, verifymode := none, image := "" }

/-- A punch from an enrollid unknown to the server. -/
def punchUnknown : LogRecord :=
  { enrollid := 99, timeParsed := some 500, mode := 0, inout := 0,
    event := 0, verifymode := none, image := "" }

/-- Two punches of enrollid 7 arriving in a single `sendlog` batch
(scenario 2 of the spec). -/
def twoPunchBatch : List LogRecord := [punchA, punchB]

/-- A concrete biometric user, enrollid 7 on terminal 1. -/
def userW : BUser :=
  { id := 41, terminalId := 1, enrollid := 7, externalId := "EXT7",
    name := "Alice", admin := 0, isEnabled := true, weekzone := 1,
    group := 0, starttime := none, endtime := none,
    syncStatus := UserSyncStatus.localOnly, lastSyncedAt := none,
    metadata := [], sourceConfig := none }

/-- One third-party user entry after envelope parsing (`UserData` of
devices/integrations).  `startParsed`/`endParsed` carry the result of
`datetime.fromisoformat` on the raw date strings (`none` for an absent
or malformed value, which the service swallows). -/
structure UserData where
  external_id : String
  fullname : String
  is_enabled : Bool
  admin_level : Nat
  group : Nat
  weekzone : Nat
  startParsed : Option Nat
  endParsed : Option Nat
  metadata : List (String × String)
deriving DecidableEq, Repr

/-- The enrollids currently used on a terminal. -/
def usedEnrollids (users : List BUser) (tid : Nat) : List Nat :=
  (users.filter (fun u => u.terminalId = tid)).map (fun u => u.enrollid)

namespace BiometricUser

/-- Modelled from the spec: `BiometricUser.get_next_enrollid` is called
by `UserSyncService._upsert_user` but is defined nowhere under the
sources.  Spec §4.7 and §8: allocate the next free enrollid for the
terminal — the smallest positive integer not currently used, `min(N\U)`
for the used set U. -/
def get_next_enrollid (users : List BUser) (tid : Nat) : Nat :=
  Nat.find (p := fun n => 0 < n ∧ n ∉ usedEnrollids users tid)
    ⟨(usedEnrollids users tid).sum + 1, Nat.succ_pos _, fun hmem =>
      absurd (List.single_le_sum (fun x _ => Nat.zero_le x) _ hmem)
        (by omega)⟩

end BiometricUser

/-- Outcome classification returned by `_upsert_user`. -/
inductive UpsertOutcome where
  | created
  | updated
  | skipped
deriving DecidableEq, Repr

namespace UserSyncService

/-- Python dict merge of the metadata mappings. -/
def mergeMeta (a b : List (String × String)) : List (String × String) :=
  (a.filter (fun p => ¬ b.any (fun q => q.1 = p.1))) ++ b

/-- The changed-field detection and overwrite of `_upsert_user` on an
existing row. -/
def updateExisting (u : BUser) (d : UserData) : BUser × Bool :=
  let changedName := u.name ≠ d.fullname
  let changedEnabled := u.isEnabled ≠ d.is_enabled
  let changedAdmin := u.admin ≠ d.admin_level
  let changedGroup := u.group ≠ d.group
  let changedMeta := u.metadata ≠ mergeMeta u.metadata d.metadata
  let changed := changedName ∨ changedEnabled ∨ changedAdmin ∨ changedGroup
    ∨ changedMeta
  if changed then
    ({ u with
        name := d.fullname,
        isEnabled := d.is_enabled,
        admin := d.admin_level,
        group := d.group,
        metadata := mergeMeta u.metadata d.metadata,
        syncStatus := UserSyncStatus.pendingSync }, true)
  else (u, false)

/-- `UserSyncService._upsert_user`: locate an existing `BiometricUser`
by `(terminal, external_id)`; update and mark `pending_sync` when a
mutable field differs, skip when identical, otherwise allocate the next
free enrollid and create the row with `sync_status = pending_sync`. -/
def _upsert_user (users : List BUser) (tid : Nat) (cfgId : Nat)
    (d : UserData) (freshId : Nat) : List BUser × UpsertOutcome :=
  match users.find?
      (fun u => u.terminalId = tid ∧ u.externalId = d.external_id) with
  | some _ =>
      let changedAny := users.any (fun u =>
        (decide (u.terminalId = tid ∧ u.externalId = d.external_id))
          && (updateExisting u d).2)
      (users.map (fun u =>
        if u.terminalId = tid ∧ u.externalId = d.external_id then
          (updateExisting u d).1
        else u),
       if changedAny then UpsertOutcome.updated else UpsertOutcome.skipped)
  | none =>
      let enrollid := BiometricUser.get_next_enrollid users tid
      (users ++ [{
          id := freshId, terminalId := tid, enrollid := enrollid,
          externalId := d.external_id, name := d.fullname,
          isEnabled := d.is_enabled, admin := d.admin_level,
          weekzone := d.weekzone, group := d.group,
          starttime := d.startParsed, endtime := d.endParsed,
          syncStatus := UserSyncStatus.pendingSync, lastSyncedAt := none,
          metadata := d.metadata, sourceConfig := some cfgId }],
       UpsertOutcome.created)

end UserSyncService

/-- Users with enrollids 1, 2 and 5 on terminal 1: the next free
enrollid is 3. -/
def usersGapW : List BUser :=
  [{ userW with id := 31, enrollid := 1, externalId := "EXT1" },
   { userW with id := 32, enrollid := 2, externalId := "EXT2" },
   { userW with id := 33, enrollid := 5, externalId := "EXT5" }]

/-- A third-party user entry unknown to the server. -/
def newDataW : UserData :=
  { external_id := "EXT9", fullname := "Bob", is_enabled := true,
    admin_level := 0, group := 0, weekzone := 1, startParsed := none,
    endParsed := none, metadata := [] }

namespace AttendanceSyncService

def DEFAULT_BATCH_SIZE : Nat := 100

def MAX_RETRY_ATTEMPTS : Nat := 5

def RETRY_BACKOFF_MINUTES : List Nat := [1, 5, 15, 60, 240]

/-- Backoff of `_get_retryable_logs`:
`RETRY_BACKOFF_MINUTES[min(sync_attempts - 1, len - 1)]`. -/
def backoffMinutes (attempts : Nat) : Nat :=
  RETRY_BACKOFF_MINUTES.getD
    (min (attempts - 1) (RETRY_BACKOFF_MINUTES.length - 1)) 0

/-- `order_by('time')` of `_get_pending_logs`. -/
def sortByTimeAsc (l : List AttendanceLogRow) : List AttendanceLogRow :=
  List.insertionSort (fun a b => a.time ≤ b.time) l

/-- The model default ordering `['-time']`, which applies to the
retryable queryset (no explicit `order_by`). -/
def sortByTimeDesc (l : List AttendanceLogRow) : List AttendanceLogRow :=
  List.insertionSort (fun a b => b.time ≤ a.time) l

/-- `AttendanceSyncService._get_pending_logs`: pending rows of the
terminals in scope whose `sync_attempts` is zero or below the retry
cap, ordered by `time`, limited to the batch size.  No backoff gate is
applied here. -/
def _get_pending_logs (db : List AttendanceLogRow) (terminalIds : List Nat)
    (limit : Nat) : List AttendanceLogRow :=
  (sortByTimeAsc (db.filter (fun r =>
    r.syncStatus = LogSyncStatus.pending
    ∧ r.terminalId ∈ terminalIds
    ∧ (r.syncAttempts = 0 ∨ r.syncAttempts < MAX_RETRY_ATTEMPTS)))).take limit

/-- The per-row backoff test in the loop of `_get_retryable_logs`:
`log.updated_at + timedelta(minutes=backoff) <= now`. -/
def retryEligible (now : Nat) (r : AttendanceLogRow) : Bool :=
  decide (r.updatedAt + backoffMinutes r.syncAttempts ≤ now)

/-- `AttendanceSyncService._get_retryable_logs`: pending rows with
`0 < sync_attempts < MAX_RETRY` (optionally restricted to one
terminal), filtered by the elapsed-backoff test, truncated to the
default batch size. -/
def _get_retryable_logs (db : List AttendanceLogRow)
    (terminalFilter : Option Nat) (now : Nat) : List AttendanceLogRow :=
  let queryset := sortByTimeDesc (db.filter (fun r =>
    decide (r.syncStatus = LogSyncStatus.pending)
    && decide (0 < r.syncAttempts)
    && decide (r.syncAttempts < MAX_RETRY_ATTEMPTS)
    && (match terminalFilter with
        | some t => decide (r.terminalId = t)
        | none => true)))
  (queryset.filter (retryEligible now)).take DEFAULT_BATCH_SIZE

/-- `AttendanceSyncService._mark_logs_failed`: one `update` incrementing
`sync_attempts` and storing the truncated error for every row of the
batch, then a second `update` promoting the rows of the batch whose new
`sync_attempts` reached `MAX_RETRY_ATTEMPTS` to `failed`.  (`update()`
bypasses `save()`, so no `auto_now` stamp is applied.) -/
def _mark_logs_failed (db : List AttendanceLogRow) (log_ids : List Nat)
    (error_message : String) : List AttendanceLogRow :=
  let afterInc := db.map (fun r =>
    if r.id ∈ log_ids then
      { r with
          syncAttempts := r.syncAttempts + 1,
          syncError := error_message.take 500 }
    else r)
  afterInc.map (fun r =>
    if r.id ∈ log_ids ∧ MAX_RETRY_ATTEMPTS ≤ r.syncAttempts then
      { r with syncStatus := LogSyncStatus.failed }
    else r)

end AttendanceSyncService

/-- A pending row that already failed once, freshly stamped. -/
def logPendingW : AttendanceLogRow :=
  { id := 1, terminalId := 1, userId := none, enrollid := 7, time := 0,
    mode := 0, inout := 0, event := 0, verifymode := none, image := "",
    accessGranted := true, syncStatus := LogSyncStatus.pending,
    syncAttempts := 1, syncedAt := none, syncError := "timeout",
    updatedAt := 1000 }

/-- A pending row whose second-attempt backoff has long elapsed. -/
def logReadyW : AttendanceLogRow :=
  { logPendingW with id := 2, time := 5, syncAttempts := 2, updatedAt := 0 }

/-- The pending request/response correlation context for a
`setusername` batch. -/
structure PendingCtx where
  userIds : List Nat
  enrollids : List Int
deriving DecidableEq, Repr

/-- Modelled from the spec: the installation of the pending correlation
context.  `_send_users_batch_to_terminal` tags the command payload with
`_user_ids`, and the response handler reads the context back from the
cache key `setusername_pending:<sn>`, but the cache write itself
appears nowhere under the sources.  Spec §4.2: the context, holding the
list of affected database user IDs, is installed just before enqueueing
the command, with a TTL equal to `connection_timeout`. -/
def install_pending_context (users : List BUser) : PendingCtx :=
  { userIds := users.map (fun u => u.id),
    enrollids := users.map (fun u => (u.enrollid : Int)) }

namespace ResponseHandler

/-- The fallback of `_handle_setusername_response` when no cached
context exists: collect the truthy `enrollid` values of the response's
`record` entries (`u.get('enrollid')` is falsy for a missing or zero
enrollid; non-integer values are not produced by the protocol). -/
def extractRecordEnrollids (message : JObj) : List Int :=
  match getF message "record" with
  | some (JVal.jlist xs) =>
      xs.filterMap (fun v =>
        match v with
        | JVal.jobj fs =>
            match getF fs "enrollid" with
            | some (JVal.jint n) => if n ≠ 0 then some n else none
            | _ => none
        | _ => none)
  | _ => []

/-- `ResponseHandler._handle_setusername_response`: with a cached
context, mark the users of its ID list (restricted to the terminal)
`synced_to_terminal` stamping `last_synced_at` on `result:true`, or
`error` on `result:false`; with no cached context, fall back to the
enrollids of the response's `record` field. -/
def _handle_setusername_response (users : List BUser) (terminalId : Nat)
    (cached : Option PendingCtx) (message : JObj) (result : Bool)
    (now : Nat) : List BUser :=
  let user_ids := match cached with | some c => c.userIds | none => []
  let enrollids := match cached with
    | some c => c.enrollids
    | none => extractRecordEnrollids message
  if result then
    if user_ids ≠ [] then
      users.map (fun u =>
        if u.id ∈ user_ids ∧ u.terminalId = terminalId then
          { u with
              syncStatus := UserSyncStatus.syncedToTerminal,
              lastSyncedAt := some now }
        else u)
    else if enrollids ≠ [] then
      users.map (fun u =>
        if u.terminalId = terminalId ∧ (u.enrollid : Int) ∈ enrollids then
          { u with
              syncStatus := UserSyncStatus.syncedToTerminal,
              lastSyncedAt := some now }
        else u)
    else users
  else
    if user_ids ≠ [] then
      users.map (fun u =>
        if u.id ∈ user_ids ∧ u.terminalId = terminalId then
          { u with syncStatus := UserSyncStatus.errorStatus }
        else u)
    else if enrollids ≠ [] then
      users.map (fun u =>
        if u.terminalId = terminalId ∧ (u.enrollid : Int) ∈ enrollids then
          { u with syncStatus := UserSyncStatus.errorStatus }
        else u)
    else users

end ResponseHandler

/-- A user awaiting sync whose enrollid appears in a fallback response. -/
def fallbackUserW : BUser :=
  { userW with
      id := 50, terminalId := 2, enrollid := 5,
      syncStatus := UserSyncStatus.pendingSync }

/-- A `setusername` acknowledgement carrying a `record` field, arriving
after the cached context expired. -/
def fallbackMsgW : JObj :=
  [("ret", JVal.jstr "setusername"), ("result", JVal.jbool true),
   ("record", JVal.jlist [JVal.jobj [("enrollid", JVal.jint 5)]])]

/-- The three users of a pushed `setusername` batch on terminal 2, plus
a bystander user of the same terminal. -/
def syncUsersW : List BUser :=
  [{ fallbackUserW with id := 10, enrollid := 11 },
   { fallbackUserW with id := 11, enrollid := 12 },
   { fallbackUserW with id := 12, enrollid := 13 },
   { fallbackUserW with id := 13, enrollid := 14 }]

/-- The pre-registered context of that batch: database IDs 10, 11, 12. -/
def ctxW : PendingCtx := { userIds := [10, 11, 12], enrollids := [] }

/-- A bare `setusername` acknowledgement. -/
def retMsgW : JObj :=
  [("ret", JVal.jstr "setusername"), ("result", JVal.jbool true)]

/-- One credential row (`BiometricCredential` model). -/
structure CredentialRow where
  userId : Nat
  backupnum : Int
  record : String
deriving DecidableEq, Repr

/-- Typed `senduser` message (`SendUserMessage` of protocol/types.py);
the validator has enforced `enrollid ≥ 0`.  `recordPayload` is the
stringified credential payload, `none` when the message carries no
`record`. -/
structure SendUserMessage where
  enrollid : Nat
  name : String
  backupnum : Int
  admin : Nat
  recordPayload : Option String
deriving DecidableEq, Repr

/-- Typed `sendlog` message (`SendLogMessage` of protocol/types.py). -/
structure SendLogMessage where
  sn : String
  count : Int
  logindex : Int
  records : List LogRecord
deriving DecidableEq, Repr

/-- The relational state a handler can read or write. -/
structure ServerState where
  terminals : List TerminalRow
  users : List BUser
  credentials : List CredentialRow
  logs : List AttendanceLogRow
deriving DecidableEq, Repr

namespace UserService

/-- The credential upsert of `process_user`:
`BiometricCredential.objects.update_or_create(user=..., backupnum=...)`. -/
def upsertCred (creds : List CredentialRow) (uid : Nat)
    (msg : SendUserMessage) : List CredentialRow :=
  match msg.recordPayload with
  | none => creds
  | some rec =>
      match creds.find?
          (fun c => c.userId = uid ∧ c.backupnum = msg.backupnum) with
      | some _ =>
          creds.map (fun c =>
            if c.userId = uid ∧ c.backupnum = msg.backupnum then
              { c with record := rec }
            else c)
      | none => creds ++ [{
          userId := uid, backupnum := msg.backupnum, record := rec }]

/-- `UserService.process_user`: upsert the `BiometricUser` by
`(terminal, enrollid)` with `name` and `admin` as defaults, then upsert
the credential when a payload is present. -/
def process_user (users : List BUser) (creds : List CredentialRow)
    (tid : Nat) (msg : SendUserMessage) (freshUid : Nat) :
    List BUser × List CredentialRow :=
  match users.find?
      (fun u => u.terminalId = tid ∧ u.enrollid = msg.enrollid) with
  | some u0 =>
      (users.map (fun u =>
        if u.terminalId = tid ∧ u.enrollid = msg.enrollid then
          { u with name := msg.name, admin := msg.admin }
        else u),
       upsertCred creds u0.id msg)
  | none =>
      (users ++ [{
          id := freshUid, terminalId := tid, enrollid := msg.enrollid,
          externalId := "", name := msg.name, admin := msg.admin,
          isEnabled := true, weekzone := 1, group := 0, starttime := none,
          endtime := none, syncStatus := UserSyncStatus.localOnly,
          lastSyncedAt := none, metadata := [], sourceConfig := none }],
       upsertCred creds freshUid msg)

end UserService

namespace AccessControlService

/-- `AccessControlService.check_qrcode_access`: parse the QR payload as
an enrollid (`int(qrcode)` modelled by `String.toInt?`), resolve the
user, and check enablement and the validity window. -/
def check_qrcode_access (users : List BUser) (tid : Nat) (qrcode : String)
    (now : Nat) : Bool × Int × String × String :=
  match qrcode.toInt? with
  | none => (false, 0, "", "Invalid QR code format")
  | some enrollid =>
      match users.find?
          (fun u => u.terminalId = tid ∧ (u.enrollid : Int) = enrollid) with
      | none => (false, 0, "", "User not found")
      | some u =>
          if ¬ u.isEnabled then (false, enrollid, u.name, "User disabled")
          else if (match u.starttime with
            | some st => decide (now < st)
            | none => false) then (false, enrollid, u.name, "Access not yet valid")
          else if (match u.endtime with
            | some et => decide (et < now)
            | none => false) then (false, enrollid, u.name, "Access expired")
          else (true, enrollid, u.name, "Access granted")

end AccessControlService

namespace AttendanceHandler

/-- `AttendanceHandler.handle`: with no resolved terminal, answer the
failure `sendlog` response and touch nothing; otherwise process the
batch and stamp `last_seen`. -/
def handle (st : ServerState) (terminal : Option TerminalRow)
    (msg : SendLogMessage) (now nextId : Nat) : JObj × ServerState :=
  match terminal with
  | none => (ResponseBuilder.sendlog false 0 0 (cloudtimeOf now) 1, st)
  | some t =>
      let out := AttendanceService.process_logs_sync st.users st.logs t.id
        msg.records now nextId
      (ResponseBuilder.sendlog true (out.2.1 : Int) msg.logindex
        (cloudtimeOf now) (if out.2.2 then 1 else 0),
       { st with
          logs := out.1,
          terminals := st.terminals.map (fun x =>
            if x.sn = t.sn then { x with lastSeen := some now } else x) })

end AttendanceHandler

namespace UserHandler

/-- `UserHandler.handle`: with no resolved terminal, answer the failure
`senduser` response and touch nothing; otherwise upsert user and
credential. -/
def handle (st : ServerState) (terminal : Option TerminalRow)
    (msg : SendUserMessage) (now freshUid : Nat) : JObj × ServerState :=
  match terminal with
  | none => (ResponseBuilder.senduser false (cloudtimeOf now) 1, st)
  | some t =>
      let out := UserService.process_user st.users st.credentials t.id msg
        freshUid
      (ResponseBuilder.senduser true (cloudtimeOf now) 1,
       { st with users := out.1, credentials := out.2 })

end UserHandler

namespace QRCodeHandler

/-- `QRCodeHandler.handle`: with no resolved terminal, answer the
failure `sendqrcode` response and touch nothing; otherwise evaluate the
access decision (which reads but never writes the state). -/
def handle (st : ServerState) (terminal : Option TerminalRow)
    (qrcode : String) (now : Nat) : JObj × ServerState :=
  match terminal with
  | none => (ResponseBuilder.sendqrcode false 1 0 "" "", st)
  | some t =>
      let out := AccessControlService.check_qrcode_access st.users t.id
        qrcode now
      (ResponseBuilder.sendqrcode true (if out.1 then 1 else 0) out.2.1
        out.2.2.1 out.2.2.2, st)

end QRCodeHandler

namespace RegistrationService

theorem sn_applyRegDefaults (t : TerminalRow) (m : RegisterMessage)
    (now : Nat) : (applyRegDefaults t m now).sn = t.sn := by
  unfold applyRegDefaults
  cases m.devinfo <;> rfl

theorem applyRegDefaults_fields (t : TerminalRow) (m : RegisterMessage)
    (d : DeviceInfo) (now : Nat) (hd : m.devinfo = some d) :
    (applyRegDefaults t m now).cpusn = m.cpusn
    ∧ (applyRegDefaults t m now).model = d.modelname
    ∧ (applyRegDefaults t m now).firmware = d.firmware
    ∧ (applyRegDefaults t m now).macAddress = d.mac
    ∧ (applyRegDefaults t m now).userCapacity = d.usersize
    ∧ (applyRegDefaults t m now).fpCapacity = d.fpsize
    ∧ (applyRegDefaults t m now).cardCapacity = d.cardsize
    ∧ (applyRegDefaults t m now).logCapacity = d.logsize
    ∧ (applyRegDefaults t m now).lastSeen = some now
    ∧ (applyRegDefaults t m now).isActive = true := by
  unfold applyRegDefaults
  rw [hd]
  exact ⟨rfl, rfl, rfl, rfl, rfl, rfl, rfl, rfl, rfl, rfl⟩

/-- Every row carrying the message's serial number after a `register`
call has just been stamped with the message's `defaults`. -/
theorem register_snapshot (db : List TerminalRow) (m : RegisterMessage)
    (now fid : Nat) :
    ∀ t ∈ (register db m now fid).1, t.sn = m.sn →
      ∃ s, t = applyRegDefaults s m now := by
  intro t ht hsn
  unfold register at ht
  cases hf : db.find? (fun s => s.sn = m.sn) with
  | some t0 =>
      rw [hf] at ht
      simp only [List.mem_map] at ht
      obtain ⟨s, _, hs⟩ := ht
      by_cases h : s.sn = m.sn
      · exact ⟨s, by rw [← hs]; simp [h]⟩
      · exfalso
        rw [if_neg h] at hs
        exact h (hs ▸ hsn)
  | none =>
      rw [hf] at ht
      rcases List.mem_append.mp ht with hmem | hmem
      · exfalso
        have := List.find?_eq_none.mp hf t hmem
        simp only [decide_eq_true_eq] at this
        exact this hsn
      · have : t = newTerminalRow m now fid := by
          simpa using hmem
        exact ⟨_, this⟩

theorem sn_newTerminalRow (m : RegisterMessage) (now fid : Nat) :
    (newTerminalRow m now fid).sn = m.sn := by
  unfold newTerminalRow
  rw [sn_applyRegDefaults]

/-- Count of rows with the message's serial number after a `register`
call: an existing row is overwritten in place, a missing row appended. -/
theorem register_countP (db : List TerminalRow) (m : RegisterMessage)
    (now fid : Nat) :
    (register db m now fid).1.countP (fun t => t.sn = m.sn)
      = max (db.countP (fun t => t.sn = m.sn)) 1 := by
  unfold register
  cases hf : db.find? (fun s => s.sn = m.sn) with
  | some t0 =>
      simp only
      rw [List.countP_map]
      have hcong : db.countP
          ((fun t => decide (t.sn = m.sn)) ∘
            (fun t => if t.sn = m.sn then applyRegDefaults t m now else t))
          = db.countP (fun t => decide (t.sn = m.sn)) := by
        apply List.countP_congr
        intro s _
        by_cases h : s.sn = m.sn
        · simp [h, sn_applyRegDefaults]
        · simp [h]
      rw [hcong]
      have hpos : 0 < db.countP (fun t => decide (t.sn = m.sn)) := by
        apply List.countP_pos_iff.mpr
        exact ⟨t0, List.mem_of_find?_eq_some hf, by
          simpa using List.find?_some hf⟩
      omega
  | none =>
      simp only
      rw [List.countP_append]
      have hz : db.countP (fun t => decide (t.sn = m.sn)) = 0 := by
        apply List.countP_eq_zero.mpr
        intro s hs
        have := List.find?_eq_none.mp hf s hs
        simpa using this
      have hone : List.countP (fun t => decide (t.sn = m.sn))
          [newTerminalRow m now fid] = 1 := by
        simp [List.countP_cons, sn_newTerminalRow]
      rw [hz, hone]
      omega

end RegistrationService

/-- C7 counterexample: with whitelist mode on and `TM20-002` absent from
the table, the `reg` is answered `result:false` with reason
"Terminal not authorized" and no `Terminal` row is created — but the
consumer does not close the socket (`socketClosed = false`), refuting
the part of the claim that says the socket is then closed. -/
theorem c7_counterexample :
    (handleReg true [] ⟨"TM20-002", "", none⟩ 0 1).response
        = ResponseBuilder.reg false "" true "Terminal not authorized"
    ∧ (handleReg true [] ⟨"TM20-002", "", none⟩ 0 1).db = []
    ∧ (handleReg true [] ⟨"TM20-002", "", none⟩ 0 1).socketClosed = false := by
  exact ⟨rfl, rfl, rfl⟩

/-- C7 (amended): with whitelist mode enabled, a `reg` message whose SN
does not resolve to an existing whitelisted active terminal is answered
`\x7bret:"reg", result:false, reason:"Terminal not authorized"\x7d` and no
`Terminal` row is created or updated; the websocket, however, is left
open (the consumer sends the failure response and does not close the
socket). -/
theorem c7_whitelist_reject (db : List TerminalRow) (m : RegisterMessage)
    (now fid : Nat) (hsn : m.sn ≠ "")
    (hw : RegistrationService.is_whitelisted true db m.sn = false) :
    handleReg true db m now fid
      = { response := ResponseBuilder.reg false "" true "Terminal not authorized",
          db := db, socketClosed := false } := by
  unfold handleReg
  rw [if_neg hsn, hw]
  simp

/-- C7 witness: a concrete non-whitelisted terminal exercising
`c7_whitelist_reject`. -/
theorem c7_whitelist_reject_witness :
    handleReg true [] ⟨"TM20-999", "", none⟩ 5 1
      = { response := ResponseBuilder.reg false "" true "Terminal not authorized",
          db := [], socketClosed := false } :=
  c7_whitelist_reject [] ⟨"TM20-999", "", none⟩ 5 1 (by decide) (by decide)

/-- C8: registration is idempotent.  For a valid `reg` message `M`
(non-empty SN, device info present, whitelist passing because whitelist
mode is off) applied twice to a table whose unique index on `sn` holds,
exactly one `Terminal` row keyed by `M.sn` remains, its device-info
fields equal those of `M`, `last_seen` is advanced to the second
application's clock, and each application answers
`\x7bret:"reg", result:true, cloudtime, nosenduser:true\x7d`. -/
theorem c8_registration_idempotent (db : List TerminalRow)
    (m : RegisterMessage) (d : DeviceInfo) (now1 now2 fid1 fid2 : Nat)
    (hsn : m.sn ≠ "") (hd : m.devinfo = some d)
    (hu : db.countP (fun t => t.sn = m.sn) ≤ 1) :
    (handleReg false db m now1 fid1).response
        = ResponseBuilder.reg true (cloudtimeOf now1) true ""
    ∧ (handleReg false (handleReg false db m now1 fid1).db m now2 fid2).response
        = ResponseBuilder.reg true (cloudtimeOf now2) true ""
    ∧ (handleReg false (handleReg false db m now1 fid1).db m now2 fid2).db.countP
        (fun t => t.sn = m.sn) = 1
    ∧ ∀ t ∈ (handleReg false (handleReg false db m now1 fid1).db m now2 fid2).db,
        t.sn = m.sn →
          t.cpusn = m.cpusn ∧ t.model = d.modelname
          ∧ t.firmware = d.firmware ∧ t.macAddress = d.mac
          ∧ t.userCapacity = d.usersize ∧ t.fpCapacity = d.fpsize
          ∧ t.cardCapacity = d.cardsize ∧ t.logCapacity = d.logsize
          ∧ t.lastSeen = some now2 ∧ t.isActive = true := by
  have hwl : ∀ s, RegistrationService.is_whitelisted false db s = true := by
    intro s
    simp [RegistrationService.is_whitelisted]
  have hdb1 : (handleReg false db m now1 fid1).db
      = (RegistrationService.register db m now1 fid1).1 := by
    unfold handleReg
    rw [if_neg hsn]
    simp [RegistrationService.is_whitelisted]
  have hdb2 : (handleReg false (handleReg false db m now1 fid1).db m now2 fid2).db
      = (RegistrationService.register (handleReg false db m now1 fid1).db
          m now2 fid2).1 := by
    unfold handleReg
    rw [if_neg hsn]
    simp [RegistrationService.is_whitelisted]
  refine ⟨?_, ?_, ?_, ?_⟩
  · unfold handleReg
    rw [if_neg hsn]
    simp [RegistrationService.is_whitelisted]
  · unfold handleReg
    rw [if_neg hsn]
    simp [RegistrationService.is_whitelisted]
  · rw [hdb2, RegistrationService.register_countP, hdb1,
      RegistrationService.register_countP]
    omega
  · intro t ht hts
    rw [hdb2] at ht
    obtain ⟨s, hs⟩ := RegistrationService.register_snapshot _ m now2 fid2 t ht hts
    obtain ⟨h1, h2, h3, h4, h5, h6, h7, h8, h9, h10⟩ :=
      RegistrationService.applyRegDefaults_fields s m d now2 hd
    rw [hs]
    exact ⟨h1, h2, h3, h4, h5, h6, h7, h8, h9, h10⟩

/-- C8 witness: one concrete terminal registered twice. -/
theorem c8_registration_idempotent_witness :
    (handleReg false [] regMsgW 10 1).response
        = ResponseBuilder.reg true (cloudtimeOf 10) true ""
    ∧ (handleReg false (handleReg false [] regMsgW 10 1).db regMsgW 20 2).response
        = ResponseBuilder.reg true (cloudtimeOf 20) true ""
    ∧ (handleReg false (handleReg false [] regMsgW 10 1).db regMsgW 20 2).db.countP
        (fun t => t.sn = regMsgW.sn) = 1
    ∧ ∀ t ∈ (handleReg false (handleReg false [] regMsgW 10 1).db regMsgW 20 2).db,
        t.sn = regMsgW.sn →
          t.cpusn = regMsgW.cpusn ∧ t.model = devInfoW.modelname
          ∧ t.firmware = devInfoW.firmware ∧ t.macAddress = devInfoW.mac
          ∧ t.userCapacity = devInfoW.usersize ∧ t.fpCapacity = devInfoW.fpsize
          ∧ t.cardCapacity = devInfoW.cardsize ∧ t.logCapacity = devInfoW.logsize
          ∧ t.lastSeen = some 20 ∧ t.isActive = true :=
  c8_registration_idempotent [] regMsgW devInfoW 10 20 1 2
    (by decide) rfl (by decide)

/-- C9: every inbound frame that is malformed JSON or fails message
validation is dropped — no handler runs (`receive` never reaches
`_dispatch`) — and the websocket session is not closed as a consequence
of the invalid frame. -/
theorem c9_invalid_frames_dropped (m : JObj) (e : VErr)
    (hv : MessageValidator.validate m = Except.error e) :
    receiveAction (Frame.parsed m) = ReceiveAction.droppedInvalid e
    ∧ (∀ x, receiveAction (Frame.parsed m) ≠ ReceiveAction.dispatched x)
    ∧ receiveCloses (Frame.parsed m) = false
    ∧ receiveAction Frame.parseFailure = ReceiveAction.droppedException
    ∧ receiveCloses Frame.parseFailure = false := by
  have ha : receiveAction (Frame.parsed m) = ReceiveAction.droppedInvalid e := by
    simp only [receiveAction]
    rw [hv]
  refine ⟨ha, ?_, rfl, rfl, rfl⟩
  intro x h
  rw [ha] at h
  exact ReceiveAction.noConfusion h

/-- C9 witness: a `senduser` frame with an out-of-range `backupnum` is
dropped without closing the session. -/
theorem c9_invalid_frames_dropped_witness :
    receiveAction (Frame.parsed invalidMsgW)
        = ReceiveAction.droppedInvalid
            ⟨"Invalid backupnum: 99", some "backupnum", "INVALID_BACKUPNUM"⟩
    ∧ (∀ x, receiveAction (Frame.parsed invalidMsgW)
        ≠ ReceiveAction.dispatched x)
    ∧ receiveCloses (Frame.parsed invalidMsgW) = false
    ∧ receiveAction Frame.parseFailure = ReceiveAction.droppedException
    ∧ receiveCloses Frame.parseFailure = false :=
  c9_invalid_frames_dropped invalidMsgW
    ⟨"Invalid backupnum: 99", some "backupnum", "INVALID_BACKUPNUM"⟩ rfl

namespace AttendanceService

theorem length_prepareBatch (users : List BUser) (db : List AttendanceLogRow)
    (tid now : Nat) :
    ∀ (rs : List LogRecord) (fid : Nat),
      (prepareBatch users db tid now rs fid).length = rs.length := by
  intro rs
  induction rs with
  | nil => intro fid; rfl
  | cons r rest ih =>
      intro fid
      simp only [prepareBatch, List.length_cons, ih]

theorem getElem?_prepareBatch (users : List BUser) (db : List AttendanceLogRow)
    (tid now : Nat) :
    ∀ (rs : List LogRecord) (fid i : Nat), (h : i < rs.length) →
      (prepareBatch users db tid now rs fid)[i]?
        = some (prepare_log users db tid rs[i] now (fid + i)) := by
  intro rs
  induction rs with
  | nil =>
      intro fid i h
      exact absurd h (by simp)
  | cons r rest ih =>
      intro fid i h
      cases i with
      | zero => simp [prepareBatch]
      | succ j =>
          have hj : j < rest.length := by simpa using h
          have harith : fid + 1 + j = fid + (j + 1) := by omega
          have hstep : prepareBatch users db tid now (r :: rest) fid
              = prepare_log users db tid r now fid
                :: prepareBatch users db tid now rest (fid + 1) := rfl
          rw [hstep, List.getElem?_cons_succ, ih (fid + 1) j hj, harith,
            List.getElem_cons_succ]

end AttendanceService

/-- C2: every record of a `sendlog` batch handled for a registered
terminal yields one stored `AttendanceLog` row: the table grows by
exactly the batch size, the processed count equals the batch size, and
the row stored for the i-th record carries its enrollid with the user
link resolved by `(terminal, enrollid)` when `enrollid > 0` — a record
whose enrollid resolves to no known user is still stored, with a null
user. -/
theorem c2_sendlog_rows_stored (users : List BUser)
    (db : List AttendanceLogRow) (terminalId : Nat)
    (records : List LogRecord) (now nextId : Nat) :
    (AttendanceService.process_logs_sync users db terminalId records now
        nextId).1.length = db.length + records.length
    ∧ (AttendanceService.process_logs_sync users db terminalId records now
        nextId).2.1 = records.length
    ∧ ∀ i, (h : i < records.length) → ∃ row,
        (AttendanceService.process_logs_sync users db terminalId records now
            nextId).1[db.length + i]? = some row
        ∧ row.enrollid = records[i].enrollid
        ∧ row.userId =
            (if 0 < records[i].enrollid then
              (users.find? (fun u => u.terminalId = terminalId
                ∧ (u.enrollid : Int) = records[i].enrollid)).map (fun u => u.id)
            else none) := by
  refine ⟨?_, ?_, ?_⟩
  · simp [AttendanceService.process_logs_sync,
      AttendanceService.length_prepareBatch]
  · simp [AttendanceService.process_logs_sync,
      AttendanceService.length_prepareBatch]
  · intro i h
    refine ⟨AttendanceService.prepare_log users db terminalId
      records[i] now (nextId + i), ?_, ?_, ?_⟩
    · show (db ++ AttendanceService.prepareBatch users db terminalId now
          records nextId)[db.length + i]? = _
      rw [List.getElem?_append_right (by omega)]
      have hsub : db.length + i - db.length = i := by omega
      rw [hsub]
      exact AttendanceService.getElem?_prepareBatch users db terminalId now
        records nextId i h
    · rfl
    · rfl

/-- C2 witness: a batch of one known punch (enrollid 7, resolving to a
user) and one unknown punch (enrollid 99, stored with null user). -/
theorem c2_sendlog_rows_stored_witness :
    (AttendanceService.process_logs_sync [userW] ([] : List AttendanceLogRow)
        1 [punchA, punchUnknown] 0 1).1.length
      = ([] : List AttendanceLogRow).length + [punchA, punchUnknown].length
    ∧ (AttendanceService.process_logs_sync [userW] ([] : List AttendanceLogRow)
        1 [punchA, punchUnknown] 0 1).2.1 = [punchA, punchUnknown].length
    ∧ ∀ i, (h : i < [punchA, punchUnknown].length) → ∃ row,
        (AttendanceService.process_logs_sync [userW]
            ([] : List AttendanceLogRow) 1 [punchA, punchUnknown]
            0 1).1[([] : List AttendanceLogRow).length + i]? = some row
        ∧ row.enrollid = [punchA, punchUnknown][i].enrollid
        ∧ row.userId =
            (if 0 < [punchA, punchUnknown][i].enrollid then
              ([userW].find? (fun u => u.terminalId = 1
                ∧ (u.enrollid : Int) = [punchA, punchUnknown][i].enrollid)).map
                  (fun u => u.id)
            else none) :=
  c2_sendlog_rows_stored [userW] [] 1 [punchA, punchUnknown] 0 1

theorem inoutSeq_append (a b : List AttendanceLogRow) (E : Int) (T : Nat) :
    inoutSeq (a ++ b) E T = inoutSeq a E T ++ inoutSeq b E T := by
  simp [inoutSeq, List.filter_append]

/-- The server-side inout decision is the flip rule applied to the
stored inout sequence. -/
theorem determine_eq_flipNext (db : List AttendanceLogRow) (E : Int)
    (T : Nat) :
    AttendanceLog.determine_inout_status db E T = flipNext (inoutSeq db E T) := by
  unfold AttendanceLog.determine_inout_status flipNext inoutSeq
  rw [List.getLast?_map]
  cases (db.filter (fun r => r.terminalId = T ∧ r.enrollid = E)).getLast? with
  | none => rfl
  | some prev => rfl

/-- Every row a single batch stores for `(E, T)` carries the same
inout value, the one computed from the table before the batch. -/
theorem inoutSeq_prepareBatch (users : List BUser)
    (db : List AttendanceLogRow) (T now : Nat) (E : Int) (hE : 0 < E) :
    ∀ (rs : List LogRecord) (fid : Nat),
      inoutSeq (AttendanceService.prepareBatch users db T now rs fid) E T
        = List.replicate (rs.countP (fun r => r.enrollid = E))
            (AttendanceLog.determine_inout_status db E T) := by
  intro rs
  induction rs with
  | nil => intro fid; rfl
  | cons r rest ih =>
      intro fid
      have hstep : AttendanceService.prepareBatch users db T now (r :: rest) fid
          = AttendanceService.prepare_log users db T r now fid
            :: AttendanceService.prepareBatch users db T now rest (fid + 1) :=
        rfl
      rw [hstep]
      unfold inoutSeq
      by_cases hr : r.enrollid = E
      · have hpos : 0 < r.enrollid := hr ▸ hE
        have hpred : (fun x : AttendanceLogRow =>
            decide (x.terminalId = T ∧ x.enrollid = E))
            (AttendanceService.prepare_log users db T r now fid) = true := by
          simp [AttendanceService.prepare_log, hr]
        rw [List.filter_cons_of_pos (p := fun x : AttendanceLogRow =>
          decide (x.terminalId = T ∧ x.enrollid = E)) hpred, List.map_cons]
        have hio : (AttendanceService.prepare_log users db T r now fid).inout
            = AttendanceLog.determine_inout_status db E T := by
          simp [AttendanceService.prepare_log, hpos, hr, hE]
        rw [hio]
        have hcount : (r :: rest).countP (fun x => x.enrollid = E)
            = rest.countP (fun x => x.enrollid = E) + 1 := by
          simp [List.countP_cons, hr]
        rw [hcount, List.replicate_succ]
        congr 1
        exact ih (fid + 1)
      · have hpred : ¬ ((fun x : AttendanceLogRow =>
            decide (x.terminalId = T ∧ x.enrollid = E))
            (AttendanceService.prepare_log users db T r now fid) = true) := by
          simp [AttendanceService.prepare_log, hr]
        rw [List.filter_cons_of_neg (p := fun x : AttendanceLogRow =>
          decide (x.terminalId = T ∧ x.enrollid = E)) hpred]
        have hcount : (r :: rest).countP (fun x => x.enrollid = E)
            = rest.countP (fun x => x.enrollid = E) := by
          simp [List.countP_cons, hr]
        rw [hcount]
        exact ih (fid + 1)

theorem altSeq_succ (k : Nat) :
    altSeq (k + 1) = altSeq k ++ [((k % 2 : Nat) : Int)] := by
  simp [altSeq, List.range_succ]

theorem flipNext_altSeq (k : Nat) :
    flipNext (altSeq k) = ((k % 2 : Nat) : Int) := by
  cases k with
  | zero => rfl
  | succ j =>
      rw [altSeq_succ, flipNext, List.getLast?_concat]
      rcases Nat.mod_two_eq_zero_or_one j with h | h
      · have h2 : (j + 1) % 2 = 1 := by omega
        simp [h, h2]
      · have h2 : (j + 1) % 2 = 0 := by omega
        simp [h, h2]

/-- One `_process_logs_sync` call extends an alternating `(E, T)`
history by the batch's `(E, T)` punch count, provided that count is at
most one. -/
theorem inoutSeq_process_batch (users : List BUser) (T now : Nat) (E : Int)
    (hE : 0 < E) (db : List AttendanceLogRow) (rs : List LogRecord)
    (nid k : Nat) (h : inoutSeq db E T = altSeq k)
    (hc : rs.countP (fun r => r.enrollid = E) ≤ 1) :
    inoutSeq (AttendanceService.process_logs_sync users db T rs now nid).1 E T
      = altSeq (k + rs.countP (fun r => r.enrollid = E)) := by
  show inoutSeq (db ++ AttendanceService.prepareBatch users db T now rs nid)
      E T = _
  rw [inoutSeq_append, h, inoutSeq_prepareBatch users db T now E hE rs nid,
    determine_eq_flipNext, h, flipNext_altSeq]
  rcases Nat.le_one_iff_eq_zero_or_eq_one.mp hc with hc0 | hc1
  · rw [hc0]
    simp
  · rw [hc1, List.replicate_one, ← altSeq_succ]

/-- Folding `inoutSeq_process_batch` over a list of batches. -/
theorem inoutSeq_processBatches (users : List BUser) (T now : Nat) (E : Int)
    (hE : 0 < E) :
    ∀ (batches : List (List LogRecord)) (db : List AttendanceLogRow)
      (nid k : Nat), inoutSeq db E T = altSeq k →
      (∀ b ∈ batches, b.countP (fun r => r.enrollid = E) ≤ 1) →
      inoutSeq (AttendanceService.processBatches users T now batches db nid)
          E T
        = altSeq (k + (batches.map
            (fun b => b.countP (fun r => r.enrollid = E))).sum) := by
  intro batches
  induction batches with
  | nil =>
      intro db nid k h _
      simpa using h
  | cons b rest ih =>
      intro db nid k h hb
      have hstep := inoutSeq_process_batch users T now E hE db b nid k h
        (hb b (by simp))
      have hrest := ih _ (nid + b.length)
        (k + b.countP (fun r => r.enrollid = E)) hstep
        (fun x hx => hb x (by simp [hx]))
      show inoutSeq (AttendanceService.processBatches users T now rest
        (AttendanceService.process_logs_sync users db T b now nid).1
        (nid + b.length)) E T = _
      rw [hrest]
      congr 1
      simp
      omega

/-- C3 counterexample: from an empty history, a single `sendlog` batch
carrying two punches of enrollid 7 on terminal 1 stores the inout
values [0, 0], not the alternating [0, 1] the claim demands — both
records are prepared against the pre-batch table, which `bulk_create`
has not yet extended. -/
theorem c3_counterexample :
    inoutSeq (AttendanceService.process_logs_sync [] [] 1 twoPunchBatch
        0 1).1 7 1 = [0, 0]
    ∧ inoutSeq (AttendanceService.process_logs_sync [] [] 1 twoPunchBatch
        0 1).1 7 1 ≠ altSeq 2 := by
  constructor
  · rfl
  · decide

/-- C3 (amended): the server determines `inout` from the most recent
log stored for `(E, T)` (previous 0 gives 1, otherwise 0), never from
the device-supplied value; therefore all punches of `(E, T)` inside one
batch receive one and the same inout value, computed from the pre-batch
history, and when every batch carries at most one punch for `(E, T)`
the stored inout sequence alternates 0,1,0,1,… starting at 0 from an
empty history. -/
theorem c3_inout_flip (users : List BUser) (T now : Nat) (E : Int)
    (hE : 0 < E) (batches : List (List LogRecord))
    (db0 : List AttendanceLogRow) (nid : Nat)
    (h0 : inoutSeq db0 E T = [])
    (hb : ∀ b ∈ batches, b.countP (fun r => r.enrollid = E) ≤ 1) :
    inoutSeq (AttendanceService.processBatches users T now batches db0 nid)
        E T
      = altSeq ((batches.map (fun b => b.countP (fun r => r.enrollid = E))).sum)
    ∧ ∀ (db : List AttendanceLogRow) (rs : List LogRecord) (fid : Nat),
        inoutSeq (AttendanceService.prepareBatch users db T now rs fid) E T
          = List.replicate (rs.countP (fun r => r.enrollid = E))
              (flipNext (inoutSeq db E T)) := by
  constructor
  · have := inoutSeq_processBatches users T now E hE batches db0 nid 0 h0 hb
    simpa using this
  · intro db rs fid
    rw [inoutSeq_prepareBatch users db T now E hE rs fid,
      determine_eq_flipNext]

/-- C3 witness: the two punches of scenario 2 delivered in two separate
batches alternate 0 then 1. -/
theorem c3_inout_flip_witness :
    inoutSeq (AttendanceService.processBatches [] 1 0 [[punchA], [punchB]]
        [] 1) 7 1
      = altSeq (([[punchA], [punchB]].map
          (fun b => b.countP (fun r => r.enrollid = 7))).sum)
    ∧ ∀ (db : List AttendanceLogRow) (rs : List LogRecord) (fid : Nat),
        inoutSeq (AttendanceService.prepareBatch [] db 1 0 rs fid) 7 1
          = List.replicate (rs.countP (fun r => r.enrollid = 7))
              (flipNext (inoutSeq db 7 1)) :=
  c3_inout_flip [] 1 0 7 (by decide) [[punchA], [punchB]] [] 1 rfl (by decide)

theorem get_next_enrollid_spec (users : List BUser) (tid : Nat) :
    0 < BiometricUser.get_next_enrollid users tid
    ∧ BiometricUser.get_next_enrollid users tid ∉ usedEnrollids users tid := by
  unfold BiometricUser.get_next_enrollid
  exact Nat.find_spec (p := fun n => 0 < n ∧ n ∉ usedEnrollids users tid)
    ⟨(usedEnrollids users tid).sum + 1, Nat.succ_pos _, fun hmem =>
      absurd (List.single_le_sum (fun x _ => Nat.zero_le x) _ hmem)
        (by omega)⟩

theorem get_next_enrollid_min (users : List BUser) (tid : Nat) (m : Nat)
    (h1 : 0 < m) (h2 : m ∉ usedEnrollids users tid) :
    BiometricUser.get_next_enrollid users tid ≤ m := by
  unfold BiometricUser.get_next_enrollid
  exact Nat.find_min' (p := fun n => 0 < n ∧ n ∉ usedEnrollids users tid)
    ⟨(usedEnrollids users tid).sum + 1, Nat.succ_pos _, fun hmem =>
      absurd (List.single_le_sum (fun x _ => Nat.zero_le x) _ hmem)
        (by omega)⟩
    ⟨h1, h2⟩

/-- C4: when the user-sync upsert finds no `BiometricUser` by
`(terminal, external_id)`, it creates one row, appended to the table,
whose `sync_status` is `pending_sync` and whose allocated enrollid is
the smallest positive integer not currently used on the terminal —
positive, unused, and a lower bound of every positive unused value. -/
theorem c4_upsert_allocates_min_free (users : List BUser) (tid cfgId : Nat)
    (d : UserData) (freshId : Nat)
    (hnone : users.find?
      (fun u => u.terminalId = tid ∧ u.externalId = d.external_id) = none) :
    (UserSyncService._upsert_user users tid cfgId d freshId).2
        = UpsertOutcome.created
    ∧ ∃ u, (UserSyncService._upsert_user users tid cfgId d freshId).1
          = users ++ [u]
        ∧ u.syncStatus = UserSyncStatus.pendingSync
        ∧ u.enrollid = BiometricUser.get_next_enrollid users tid
        ∧ 0 < u.enrollid
        ∧ u.enrollid ∉ usedEnrollids users tid
        ∧ ∀ m, 0 < m → m ∉ usedEnrollids users tid → u.enrollid ≤ m := by
  have hred : UserSyncService._upsert_user users tid cfgId d freshId
      = (users ++ [{
          id := freshId, terminalId := tid,
          enrollid := BiometricUser.get_next_enrollid users tid,
          externalId := d.external_id, name := d.fullname,
          isEnabled := d.is_enabled, admin := d.admin_level,
          weekzone := d.weekzone, group := d.group,
          starttime := d.startParsed, endtime := d.endParsed,
          syncStatus := UserSyncStatus.pendingSync, lastSyncedAt := none,
          metadata := d.metadata, sourceConfig := some cfgId }],
        UpsertOutcome.created) := by
    unfold UserSyncService._upsert_user
    rw [hnone]
  rw [hred]
  refine ⟨rfl, ⟨_, rfl, rfl, rfl, ?_, ?_, ?_⟩⟩
  · exact (get_next_enrollid_spec users tid).1
  · exact (get_next_enrollid_spec users tid).2
  · intro m h1 h2
    exact get_next_enrollid_min users tid m h1 h2

/-- C4 witness: with enrollids 1, 2 and 5 in use, the created row gets
the smallest free positive enrollid. -/
theorem c4_upsert_allocates_min_free_witness :
    (UserSyncService._upsert_user usersGapW 1 3 newDataW 77).2
        = UpsertOutcome.created
    ∧ ∃ u, (UserSyncService._upsert_user usersGapW 1 3 newDataW 77).1
          = usersGapW ++ [u]
        ∧ u.syncStatus = UserSyncStatus.pendingSync
        ∧ u.enrollid = BiometricUser.get_next_enrollid usersGapW 1
        ∧ 0 < u.enrollid
        ∧ u.enrollid ∉ usedEnrollids usersGapW 1
        ∧ ∀ m, 0 < m → m ∉ usedEnrollids usersGapW 1 → u.enrollid ≤ m :=
  c4_upsert_allocates_min_free usersGapW 1 3 newDataW 77 (by decide)

/-- C5 counterexample: the primary drain pass selects a pending row
with `sync_attempts = 1` whose first-retry backoff (1 minute past
`updated_at = 1000`) has not elapsed at `now = 1000` — rows with
positive `sync_attempts` are not gated by backoff in
`_get_pending_logs`, refuting the claim that only `sync_attempts = 0`
rows are exempt. -/
theorem c5_counterexample :
    logPendingW ∈ AttendanceSyncService._get_pending_logs [logPendingW] [1] 100
    ∧ logPendingW.syncAttempts = 1
    ∧ 1000 < logPendingW.updatedAt
        + AttendanceSyncService.backoffMinutes logPendingW.syncAttempts := by
  refine ⟨by decide, rfl, by decide⟩

/-- C5 (amended): the backoff gate lives only in the retry pass:
`_get_retryable_logs` selects exactly the pending rows with
`0 < sync_attempts < 5` whose `updated_at + backoff(sync_attempts)` has
elapsed, with `backoff` drawn from `\x7b1, 5, 15, 60, 240\x7d` minutes;
the primary drain pass `_get_pending_logs` selects every pending
in-scope row with `sync_attempts < 5` regardless of backoff. -/
theorem c5_backoff_gates (db : List AttendanceLogRow) (now : Nat)
    (r : AttendanceLogRow) (hmem : r ∈ db) (hlen : db.length ≤ 100) :
    (r ∈ AttendanceSyncService._get_retryable_logs db none now ↔
      (r.syncStatus = LogSyncStatus.pending ∧ 0 < r.syncAttempts
        ∧ r.syncAttempts < AttendanceSyncService.MAX_RETRY_ATTEMPTS
        ∧ r.updatedAt + AttendanceSyncService.backoffMinutes r.syncAttempts
            ≤ now))
    ∧ ∀ (tids : List Nat) (limit : Nat), db.length ≤ limit →
        (r ∈ AttendanceSyncService._get_pending_logs db tids limit ↔
          (r.syncStatus = LogSyncStatus.pending ∧ r.terminalId ∈ tids
            ∧ r.syncAttempts < AttendanceSyncService.MAX_RETRY_ATTEMPTS)) := by
  constructor
  · simp only [AttendanceSyncService._get_retryable_logs]
    have l2 : ((AttendanceSyncService.sortByTimeDesc (db.filter (fun r =>
        decide (r.syncStatus = LogSyncStatus.pending)
        && decide (0 < r.syncAttempts)
        && decide (r.syncAttempts < AttendanceSyncService.MAX_RETRY_ATTEMPTS)
        && true))).filter
          (AttendanceSyncService.retryEligible now)).length
        ≤ AttendanceSyncService.DEFAULT_BATCH_SIZE := by
      refine le_trans (List.length_filter_le _ _) ?_
      rw [AttendanceSyncService.sortByTimeDesc,
        (List.perm_insertionSort _ _).length_eq]
      exact le_trans (List.length_filter_le _ _) hlen
    rw [List.take_of_length_le l2]
    simp only [List.mem_filter, AttendanceSyncService.sortByTimeDesc,
      List.mem_insertionSort, Bool.and_true, Bool.and_eq_true,
      decide_eq_true_eq, AttendanceSyncService.retryEligible]
    constructor
    · rintro ⟨⟨_, ⟨⟨h1, h2⟩, h3⟩⟩, h4⟩
      exact ⟨h1, h2, h3, h4⟩
    · rintro ⟨h1, h2, h3, h4⟩
      exact ⟨⟨hmem, ⟨⟨h1, h2⟩, h3⟩⟩, h4⟩
  · intro tids limit hl
    simp only [AttendanceSyncService._get_pending_logs]
    have l2 : (db.filter (fun r =>
        decide (r.syncStatus = LogSyncStatus.pending
          ∧ r.terminalId ∈ tids
          ∧ (r.syncAttempts = 0
            ∨ r.syncAttempts < AttendanceSyncService.MAX_RETRY_ATTEMPTS)))).length
        ≤ limit :=
      le_trans (List.length_filter_le _ _) hl
    rw [AttendanceSyncService.sortByTimeAsc]
    rw [List.take_of_length_le
      (le_trans (le_of_eq (List.perm_insertionSort _ _).length_eq) l2)]
    simp only [List.mem_insertionSort, List.mem_filter, decide_eq_true_eq]
    constructor
    · rintro ⟨_, h1, h2, h3⟩
      refine ⟨h1, h2, ?_⟩
      rcases h3 with h | h
      · simp [h, AttendanceSyncService.MAX_RETRY_ATTEMPTS]
      · exact h
    · rintro ⟨h1, h2, h3⟩
      exact ⟨hmem, h1, h2, Or.inr h3⟩

/-- C5 witness: at `now = 1000` a row with two attempts stamped at time
0 is retryable, and the drain pass keeps every pending row with fewer
than five attempts. -/
theorem c5_backoff_gates_witness :
    (logReadyW ∈ AttendanceSyncService._get_retryable_logs
        [logPendingW, logReadyW] none 1000 ↔
      (logReadyW.syncStatus = LogSyncStatus.pending
        ∧ 0 < logReadyW.syncAttempts
        ∧ logReadyW.syncAttempts < AttendanceSyncService.MAX_RETRY_ATTEMPTS
        ∧ logReadyW.updatedAt
            + AttendanceSyncService.backoffMinutes logReadyW.syncAttempts
            ≤ 1000))
    ∧ ∀ (tids : List Nat) (limit : Nat),
        [logPendingW, logReadyW].length ≤ limit →
        (logReadyW ∈ AttendanceSyncService._get_pending_logs
            [logPendingW, logReadyW] tids limit ↔
          (logReadyW.syncStatus = LogSyncStatus.pending
            ∧ logReadyW.terminalId ∈ tids
            ∧ logReadyW.syncAttempts
                < AttendanceSyncService.MAX_RETRY_ATTEMPTS)) :=
  c5_backoff_gates [logPendingW, logReadyW] 1000 logReadyW (by decide)
    (by decide)

/-- C6: a failed batch send marks the batch through
`_mark_logs_failed`, which increments `sync_attempts` by exactly one
and stores the truncated error for every row of the batch, promotes to
`failed` exactly the rows whose new `sync_attempts` reached
`MAX_RETRY_ATTEMPTS = 5`, leaves rows outside the batch untouched, and
loses no row (the table keeps the same ids in the same order). -/
theorem c6_mark_logs_failed_exact (db : List AttendanceLogRow)
    (ids : List Nat) (msg : String) :
    AttendanceSyncService._mark_logs_failed db ids msg
      = db.map (fun r =>
          if r.id ∈ ids then
            { r with
                syncAttempts := r.syncAttempts + 1,
                syncError := msg.take 500,
                syncStatus :=
                  if AttendanceSyncService.MAX_RETRY_ATTEMPTS
                      ≤ r.syncAttempts + 1
                  then LogSyncStatus.failed else r.syncStatus }
          else r)
    ∧ (AttendanceSyncService._mark_logs_failed db ids msg).map (fun r => r.id)
        = db.map (fun r => r.id) := by
  have h1 : AttendanceSyncService._mark_logs_failed db ids msg
      = db.map (fun r =>
          if r.id ∈ ids then
            { r with
                syncAttempts := r.syncAttempts + 1,
                syncError := msg.take 500,
                syncStatus :=
                  if AttendanceSyncService.MAX_RETRY_ATTEMPTS
                      ≤ r.syncAttempts + 1
                  then LogSyncStatus.failed else r.syncStatus }
          else r) := by
    simp only [AttendanceSyncService._mark_logs_failed]
    rw [List.map_map]
    apply List.map_congr_left
    intro r _
    by_cases hid : r.id ∈ ids
    · by_cases h5 : AttendanceSyncService.MAX_RETRY_ATTEMPTS
          ≤ r.syncAttempts + 1
      · simp [Function.comp, hid, h5]
      · simp [Function.comp, hid, h5]
    · simp [Function.comp, hid]
  refine ⟨h1, ?_⟩
  rw [h1, List.map_map]
  apply List.map_congr_left
  intro r _
  by_cases hid : r.id ∈ ids <;> simp [Function.comp, hid]

/-- C1 counterexample: with the cached context absent (as after a TTL
expiry) and `result:true`, the response handler marks the user whose
enrollid appears in the response's `record` field — the affected set is
inferred from `record` alone, and the user does not stay
`pending_sync`, refuting the "never inferred from the record field
alone" part of the claim. -/
theorem c1_counterexample :
    (ResponseHandler._handle_setusername_response [fallbackUserW] 2 none
        fallbackMsgW true 99).map (fun u => u.syncStatus)
      = [UserSyncStatus.syncedToTerminal]
    ∧ fallbackUserW.syncStatus = UserSyncStatus.pendingSync := by
  refine ⟨by decide, rfl⟩

/-- C1 (amended): when the pre-registered context is present it is
authoritative: `result:true` marks exactly the users of its ID list on
the terminal `synced_to_terminal` stamping `last_synced_at`,
`result:false` marks exactly those `error`, every other user is
untouched, no row is added or dropped, and the response's `record`
field plays no role; only when the context is absent does the handler
fall back to the record field's enrollids. -/
theorem c1_setusername_correlation (users : List BUser) (T : Nat)
    (ctx : PendingCtx) (m m' : JObj) (res : Bool) (now : Nat)
    (hids : ctx.userIds ≠ []) :
    ResponseHandler._handle_setusername_response users T (some ctx) m res now
      = ResponseHandler._handle_setusername_response users T (some ctx) m' res
          now
    ∧ (ResponseHandler._handle_setusername_response users T (some ctx) m res
        now).length = users.length
    ∧ ∀ i, (h : i < users.length) →
        (ResponseHandler._handle_setusername_response users T (some ctx) m res
            now)[i]?
          = some (if users[i].id ∈ ctx.userIds ∧ users[i].terminalId = T then
              (if res then
                { users[i] with
                    syncStatus := UserSyncStatus.syncedToTerminal,
                    lastSyncedAt := some now }
              else
                { users[i] with syncStatus := UserSyncStatus.errorStatus })
            else users[i]) := by
  have hred : ∀ mm : JObj,
      ResponseHandler._handle_setusername_response users T (some ctx) mm res
          now
        = users.map (fun u =>
            if u.id ∈ ctx.userIds ∧ u.terminalId = T then
              (if res then
                { u with
                    syncStatus := UserSyncStatus.syncedToTerminal,
                    lastSyncedAt := some now }
              else { u with syncStatus := UserSyncStatus.errorStatus })
            else u) := by
    intro mm
    unfold ResponseHandler._handle_setusername_response
    cases res
    · simp only [Bool.false_eq_true, if_false, if_neg (fun h => hids h)]
      simp [hids]
    · simp [hids]
  refine ⟨(hred m).trans (hred m').symm, ?_, ?_⟩
  · rw [hred m]
    simp
  · intro i h
    rw [hred m, List.getElem?_map, List.getElem?_eq_getElem h]
    rfl

/-- C1 witness: the batch of IDs 10, 11, 12 acknowledged with
`result:true`; the bystander user 13 and the record-less message shape
are inert. -/
theorem c1_setusername_correlation_witness :
    ResponseHandler._handle_setusername_response syncUsersW 2 (some ctxW)
        retMsgW true 99
      = ResponseHandler._handle_setusername_response syncUsersW 2 (some ctxW)
          fallbackMsgW true 99
    ∧ (ResponseHandler._handle_setusername_response syncUsersW 2 (some ctxW)
        retMsgW true 99).length = syncUsersW.length
    ∧ ∀ i, (h : i < syncUsersW.length) →
        (ResponseHandler._handle_setusername_response syncUsersW 2 (some ctxW)
            retMsgW true 99)[i]?
          = some (if syncUsersW[i].id ∈ ctxW.userIds
                ∧ syncUsersW[i].terminalId = 2 then
              (if true then
                { syncUsersW[i] with
                    syncStatus := UserSyncStatus.syncedToTerminal,
                    lastSyncedAt := some 99 }
              else
                { syncUsersW[i] with
                    syncStatus := UserSyncStatus.errorStatus })
            else syncUsersW[i]) :=
  c1_setusername_correlation syncUsersW 2 ctxW retMsgW fallbackMsgW true 99
    (by decide)

/-- C10: a `sendlog`, `senduser` or `sendqrcode` message on a
connection with no resolved terminal (registration not completed) is
answered with `result:false` and the handler leaves the entire
relational state untouched. -/
theorem c10_unregistered_commands_rejected (st : ServerState)
    (msgL : SendLogMessage) (msgU : SendUserMessage) (qr : String)
    (now nid fuid : Nat) :
    getF (AttendanceHandler.handle st none msgL now nid).1 "result"
        = some (JVal.jbool false)
    ∧ (AttendanceHandler.handle st none msgL now nid).2 = st
    ∧ getF (UserHandler.handle st none msgU now fuid).1 "result"
        = some (JVal.jbool false)
    ∧ (UserHandler.handle st none msgU now fuid).2 = st
    ∧ getF (QRCodeHandler.handle st none qr now).1 "result"
        = some (JVal.jbool false)
    ∧ (QRCodeHandler.handle st none qr now).2 = st :=
  ⟨rfl, rfl, rfl, rfl, rfl, rfl⟩

end TM20
